import Mathlib

/-
Verification development for the incident-detection repository.

The repository's engine (src/agent_adk.py, src/agent_google_adk.py) sends a
prompt to an external generative-inference service and parses its JSON reply
into a SourceReport; src/input_preparer.py loads upload records and parses the
markdown "CV" of each source; src/models.py holds the data model.

The external inference service is modelled as an oracle: a function from the
attempt index to the outcome of that attempt (a response value, a throttling
error, or another error).  Everything downstream of the service reply is
embedded directly from the Python source.  Python dicts are embedded as
association lists (Python dicts preserve insertion order), datetimes as an
abstract run-date record carrying the attributes the engine reads, and the
row-count statistics as exact rationals (no arithmetic is ever performed on
them, so float rounding is immaterial to every claim below).
-/

/-! ## Data model (src/models.py) -/

/-- `IncidentSeverity` enum from models.py. -/
inductive IncidentSeverity where
  | URGENT
  | ATTENTION_REQUIRED
  | ALL_GOOD
deriving DecidableEq, Repr

/-- `IncidentSeverity(value)`: Python's Enum value lookup; `none` models the
`ValueError` raised on an unrecognized value (including `None`). -/
def IncidentSeverity.ofString? (s : String) : Option IncidentSeverity :=
  if s = "URGENT" then some .URGENT
  else if s = "ATTENTION_REQUIRED" then some .ATTENTION_REQUIRED
  else if s = "ALL_GOOD" then some .ALL_GOOD
  else none

/-- `IncidentType` enum from models.py. -/
inductive IncidentType where
  | MISSING_FILE
  | DUPLICATED_FILE
  | UNEXPECTED_EMPTY
  | VOLUME_VARIATION
  | LATE_UPLOAD
  | PREVIOUS_FILE
  | FAILED_FILE
deriving DecidableEq, Repr

/-- `IncidentType(value)`: Python's Enum value lookup on the seven recognized
strings; `none` models the `ValueError` on anything else. -/
def IncidentType.ofString? (s : String) : Option IncidentType :=
  if s = "Missing File" then some .MISSING_FILE
  else if s = "Duplicated File" then some .DUPLICATED_FILE
  else if s = "Unexpected Empty File" then some .UNEXPECTED_EMPTY
  else if s = "Unexpected Volume Variation" then some .VOLUME_VARIATION
  else if s = "File Upload After Schedule" then some .LATE_UPLOAD
  else if s = "Upload of Previous File" then some .PREVIOUS_FILE
  else if s = "Failed File" then some .FAILED_FILE
  else none

/-- `FileData` from models.py.  `uploaded_at` is an abstract instant (the
engine never computes with it). -/
structure FileData where
  filename : String
  rows : Int
  status : String
  is_duplicated : Bool
  file_size : Option ℚ := none
  uploaded_at : Int
  status_message : Option String := none
deriving DecidableEq, Repr

/-- `SourceCV` from models.py; the two dicts become association lists. -/
structure SourceCV where
  resource_id : String
  workspace_id : String
  filename_pattern : String
  upload_schedule : List (String × String)
  volume_stats : List (String × List (String × ℚ))
deriving DecidableEq, Repr

/-- `Incident` from models.py. -/
structure Incident where
  incident_type : IncidentType
  severity : IncidentSeverity
  description : String
  file_name : Option String := none
  source_id : String
deriving DecidableEq, Repr

/-- `SourceReport` from models.py. -/
structure SourceReport where
  source_id : String
  incidents : List Incident := []
  status : IncidentSeverity := .ALL_GOOD
  recommendations : List String := []
deriving DecidableEq, Repr

/-- `GlobalReport` from models.py. -/
structure GlobalReport where
  date : String
  source_reports : List SourceReport
deriving DecidableEq, Repr

/-- The run date handed to the agent in `context["date"]`: a datetime, of
which the engine reads the formatted date string; its weekday is carried so
that schedule-related claims can speak about it. -/
structure RunDate where
  dateStr : String
  weekday : String
deriving DecidableEq, Repr

/-! ## Inference-response parsing (agent_adk.py, lines 99-138)

The reply text is parsed by `json.loads` and consumed with `.get` calls.
An `IncData` is one entry of `result["incidents"]` as the code reads it:
each field is the result of `inc_data.get(key)` (`none` = key absent or
null).  `RawResult` is a successfully decoded top-level JSON object;
`InferResponse.malformed` covers every reply on which `json.loads` or the
`.get` access pattern raises before the incident loop starts. -/

structure IncData where
  incident_type : Option String := none
  severity : Option String := none
  description : Option String := none
  file_name : Option String := none
deriving DecidableEq, Repr

structure RawResult where
  incidents : List IncData := []
  status : Option String := none
  recommendations : List String := []
deriving DecidableEq, Repr

inductive InferResponse where
  | malformed
  | ok (r : RawResult)
deriving DecidableEq, Repr

/-- One iteration of the incident loop: the enum lookups fall back to
`FAILED_FILE` / `ATTENTION_REQUIRED` on `ValueError`; a missing
`description` makes the `Incident(...)` constructor raise (pydantic
requires a string there), which the code only catches at the level of the
whole parse — so `none` here aborts the whole parse. -/
def parseIncident (sid : String) (e : IncData) : Option Incident :=
  match e.description with
  | none => none
  | some desc =>
      some { incident_type := (e.incident_type.bind IncidentType.ofString?).getD .FAILED_FILE,
             severity := (e.severity.bind IncidentSeverity.ofString?).getD .ATTENTION_REQUIRED,
             description := desc,
             file_name := e.file_name,
             source_id := sid }

/-- The `for inc_data in result.get("incidents", [])` loop; any raising
iteration aborts the whole parse (outer `except`). -/
def parseIncidents (sid : String) : List IncData → Option (List Incident)
  | [] => some []
  | e :: es =>
      match parseIncident sid e, parseIncidents sid es with
      | some i, some is => some (i :: is)
      | _, _ => none

/-- The synthetic report returned when response parsing raises
(`"AI Analysis Failed"`). -/
def failParseReport (sid : String) : SourceReport :=
  { source_id := sid, incidents := [], status := .ATTENTION_REQUIRED,
    recommendations := ["AI Analysis Failed"] }

/-- The synthetic report returned after the retry budget is exhausted on
throttling (`"AI Analysis Failed (Rate Limit)"`). -/
def rateLimitReport (sid : String) : SourceReport :=
  { source_id := sid, incidents := [], status := .ATTENTION_REQUIRED,
    recommendations := ["AI Analysis Failed (Rate Limit)"] }

/-- The synthetic report returned on a non-throttling service error. -/
def otherErrorReport (sid : String) (msg : String) : SourceReport :=
  { source_id := sid, incidents := [], status := .ATTENTION_REQUIRED,
    recommendations := ["AI Analysis Failed: " ++ msg] }

/-- Step 3 of `analyze_source`: parse the service reply into a
`SourceReport`.  Any exception inside the `try` (undecodable JSON, a
missing incident description, an unrecognized top-level status string)
yields the synthetic `failParseReport`.  `result.get("status", "ALL_GOOD")`
defaults the status string when the key is absent. -/
def parseResponse (sid : String) : InferResponse → SourceReport
  | .malformed => failParseReport sid
  | .ok r =>
      match parseIncidents sid r.incidents with
      | none => failParseReport sid
      | some incs =>
          match IncidentSeverity.ofString? (r.status.getD "ALL_GOOD") with
          | none => failParseReport sid
          | some st =>
              { source_id := sid, incidents := incs, status := st,
                recommendations := r.recommendations }

/-! ## The retry loop (agent_adk.py, lines 76-98) -/

/-- Outcome of one `generate_content` attempt as the `except` clause
classifies it: a reply, a throttling error (exception text containing
`"429"` or `"Resource exhausted"`), or any other error. -/
inductive AttemptOutcome where
  | success (resp : InferResponse)
  | throttle
  | failure (msg : String)
deriving Repr

def max_retries : Nat := 5
def base_delay : Nat := 10

/-- The `for attempt in range(max_retries)` loop.  `attempt` is the current
index, `remaining` the iterations left (`attempt + remaining = max_retries`
at the top-level call).  Returns either the reply that broke the loop or
the synthetic report of an early `return`, together with the list of delays
slept (`base_delay * 2 ** attempt` before each retry). -/
def attemptLoop (sid : String) (oracle : Nat → AttemptOutcome) :
    Nat → Nat → (InferResponse ⊕ SourceReport) × List Nat
  | _, 0 => (Sum.inr (rateLimitReport sid), [])
  | attempt, remaining + 1 =>
      match oracle attempt with
      | .success resp => (Sum.inl resp, [])
      | .failure msg => (Sum.inr (otherErrorReport sid msg), [])
      | .throttle =>
          if remaining = 0 then (Sum.inr (rateLimitReport sid), [])
          else
            let delay := base_delay * 2 ^ attempt
            let rest := attemptLoop sid oracle (attempt + 1) remaining
            (rest.1, delay :: rest.2)

/-- `IncidentDetectionAgent.analyze_source`: builds a prompt from
`(source_id, files, cv, context)` — the prompt reaches only the external
service, modelled by `oracle` — then runs the retry loop and parses the
reply.  Returns the report together with the backoff delays slept. -/
def analyze_source (sid : String) (files : List FileData) (cv : SourceCV)
    (d : RunDate) (last_week_files : List FileData)
    (oracle : Nat → AttemptOutcome) : SourceReport × List Nat :=
  match attemptLoop sid oracle 0 max_retries with
  | (Sum.inl resp, ds) => (parseResponse sid resp, ds)
  | (Sum.inr rep, ds) => (rep, ds)

/-! ## Global report assembly (agent_adk.py, lines 140-159) -/

/-- `IncidentDetectionAgent.generate_global_report`: iterate the
`files_data` dict in order; `cvs.get(source_id)` returning `None` (a CV is
a pydantic model, hence always truthy) skips the source via `continue`;
otherwise analyze and append.  `oracles` gives each source's service
behaviour. -/
def generate_global_report (dateStr : String)
    (files_data : List (String × List FileData))
    (last_week_files_data : List (String × List FileData))
    (cvs : List (String × SourceCV)) (d : RunDate)
    (oracles : String → Nat → AttemptOutcome) : GlobalReport :=
  { date := dateStr,
    source_reports := files_data.foldl (fun acc p =>
      match cvs.lookup p.1 with
      | none => acc
      | some cv =>
          acc ++ [(analyze_source p.1 p.2 cv d
                    ((last_week_files_data.lookup p.1).getD [])
                    (oracles p.1)).1]) [] }

/-! ## Upload-record ingestion (input_preparer.py, lines 13-39)

`load_files_data` decodes `files.json` and builds a `FileData` per item,
skipping (with a log line) any item on which the pydantic constructor
raises.  A raw JSON item is embedded at the granularity the constructor
checks it: each required field is `some` when present with a usable value,
`none` when missing or of an unusable shape; `uploaded_at` additionally
distinguishes a present-but-unparsable timestamp. -/

inductive RawTimestamp where
  | valid (t : Int)
  | invalid
deriving DecidableEq, Repr

structure RawFileItem where
  filename : Option String := none
  rows : Option Int := none
  status : Option String := none
  is_duplicated : Option Bool := none
  file_size : Option ℚ := none
  uploaded_at : Option RawTimestamp := none
  status_message : Option String := none
deriving DecidableEq, Repr

/-- `FileData(**file_item)`: pydantic validation.  All of `filename`,
`rows`, `status`, `is_duplicated` are required, and `uploaded_at` must be
present and a valid instant; `file_size` and `status_message` default to
`None`.  No constraint on the sign of `rows` is declared or checked. -/
def validateFileData (r : RawFileItem) : Option FileData :=
  match r.filename, r.rows, r.status, r.is_duplicated, r.uploaded_at with
  | some fn, some rw, some st, some dup, some (.valid t) =>
      some { filename := fn, rows := rw, status := st, is_duplicated := dup,
             file_size := r.file_size, uploaded_at := t,
             status_message := r.status_message }
  | _, _, _, _, _ => none

/-- `InputPreparer.load_files_data` after `json.load`: the per-source /
per-item loops; a raising item is skipped, never fatal to its source. -/
def load_files_data (raw : List (String × List RawFileItem)) :
    List (String × List FileData) :=
  raw.foldl (fun acc p =>
    acc ++ [(p.1, p.2.foldl (fun fs item =>
      match validateFileData item with
      | some fd => fs ++ [fd]
      | none => fs) [])]) []

/-! ## CV parsing (input_preparer.py, lines 68-156)

The markdown content is a character list.  Each `re.search` call of the
source is embedded as a position-by-position scan (`searchFrom`) with a
hand-rolled matcher for its concrete pattern.  All the patterns here are
backtracking-free except for the `\s*([^|]+)\|` tail of the volume-stats
row pattern, whose backtracking collapses to an explicit case (see
`matchDayCellAt`). -/

/-- Python `\s` on ASCII text. -/
def pyIsSpace (c : Char) : Bool :=
  c = ' ' || c = '\t' || c = '\n' || c = '\r' || c = '\x0b' || c = '\x0c'

/-- Greedy `\s*`. -/
def dropSpaces : List Char → List Char
  | [] => []
  | c :: cs => if pyIsSpace c then dropSpaces cs else c :: cs

/-- Match a literal, returning the rest of the input. -/
def stripLit : List Char → List Char → Option (List Char)
  | [], s => some s
  | _ :: _, [] => none
  | l :: ls, c :: cs => if c = l then stripLit ls cs else none

/-- `re.search`: try the pattern at every position, leftmost match wins.
(All matchers used here fail on the empty suffix, so the scan may stop at
the empty list.) -/
def searchFrom {β : Type} (m : List Char → Option β) : List Char → Option β
  | [] => none
  | c :: cs =>
      match m (c :: cs) with
      | some r => some r
      | none => searchFrom m cs

def weekdays : List String := ["Mon", "Tue", "Wed", "Thu", "Fri", "Sat", "Sun"]

/-- Matcher for `\|\s*DAY\s*\|\s*(\d{2}:\d{2})\s*\|` at one position
(input_preparer.py line 101).  Greedy `\s*` never needs backtracking here:
each following pattern element starts with a non-space character. -/
def matchDayTimeAt (day : String) (s : List Char) : Option String :=
  match stripLit ['|'] s with
  | none => none
  | some s1 =>
      match stripLit day.data (dropSpaces s1) with
      | none => none
      | some s2 =>
          match stripLit ['|'] (dropSpaces s2) with
          | none => none
          | some s3 =>
              match dropSpaces s3 with
              | d1 :: d2 :: ':' :: d3 :: d4 :: rest =>
                  if d1.isDigit && d2.isDigit && d3.isDigit && d4.isDigit then
                    match stripLit ['|'] (dropSpaces rest) with
                    | some _ => some (String.mk [d1, d2, ':', d3, d4])
                    | none => none
                  else none
              | _ => none

/-- `re.search(day_regex, content)` for the upload-schedule pattern. -/
def searchDayTime (day : String) (content : List Char) : Option String :=
  searchFrom (matchDayTimeAt day) content

/-- The schedule loop (lines 96-104): `for day in days: if match:
upload_schedule[day] = match.group(1)`. -/
def buildSchedule (content : List Char) :
    List String → List (String × String) → List (String × String)
  | [], acc => acc
  | day :: rest, acc =>
      match searchDayTime day content with
      | some t => buildSchedule content rest (acc ++ [(day, t)])
      | none => buildSchedule content rest acc

def uploadScheduleOf (content : List Char) : List (String × String) :=
  buildSchedule content weekdays []

/-- Matcher for `\|\s*DAY\s*\|\s*([^|]+)\|` at one position
(input_preparer.py line 122), returning the captured cell.  The regex
backtracks only between `\s*` and `[^|]+`: the engine first consumes the
maximal whitespace run, and gives one space back exactly when the whole
non-pipe run is whitespace (the capture must be nonempty). -/
def matchDayCellAt (day : String) (s : List Char) : Option (List Char) :=
  match stripLit ['|'] s with
  | none => none
  | some s1 =>
      match stripLit day.data (dropSpaces s1) with
      | none => none
      | some s2 =>
          match stripLit ['|'] (dropSpaces s2) with
          | none => none
          | some s3 =>
              let run := s3.takeWhile (fun c => c ≠ '|')
              match stripLit ['|'] (s3.drop run.length) with
              | none => none
              | some _ =>
                  if run = [] then none
                  else
                    match dropSpaces run with
                    | [] =>
                        match run.getLast? with
                        | some c => some [c]
                        | none => none
                    | c :: cs => some (c :: cs)

/-- `re.search(row_regex, content)` for the volume-stats row pattern. -/
def searchDayCell (day : String) (content : List Char) : Option (List Char) :=
  searchFrom (matchDayCellAt day) content

/-- `[\d,.]` character class. -/
def isNumChar (c : Char) : Bool := c.isDigit || c = ',' || c = '.'

/-- Matcher for `KEY([\d,.]+)` at one position: the literal key (e.g.
`"Mean: "`) followed by a maximal nonempty `[\d,.]` run. -/
def matchKeyNumAt (key : String) (s : List Char) : Option (List Char) :=
  match stripLit key.data s with
  | none => none
  | some s1 =>
      let cap := s1.takeWhile isNumChar
      if cap = [] then none else some cap

/-- `re.search(r"Mean: ([\d,.]+)", stats_str)` and friends. -/
def searchKeyNum (key : String) (cell : List Char) : Option (List Char) :=
  searchFrom (matchKeyNumAt key) cell

/-- `.replace(",", "")`. -/
def stripCommas (s : List Char) : List Char := s.filter (fun c => c ≠ ',')

def digitsVal (ds : List Char) : ℕ :=
  ds.foldl (fun a c => a * 10 + (c.toNat - 48)) 0

/-- Split a character list on `'.'`. -/
def splitDots (s : List Char) : List (List Char) :=
  match s with
  | [] => [[]]
  | '.' :: rest => [] :: splitDots rest
  | c :: rest =>
      match splitDots rest with
      | [] => [[c]]
      | p :: ps => (c :: p) :: ps

/-- Python `float(s)` on the comma-stripped capture of `[\d,.]+` — a
nonempty string of digits and dots.  Accepts `"12"`, `"1.5"`, `".5"`,
`"5."`; raises (here: `none`) on a bare `"."` or more than one dot.  The
value is kept as an exact rational; no arithmetic is done on it
downstream, so the float rounding of the original is immaterial. -/
def pyFloat? (s : List Char) : Option ℚ :=
  if s.all (fun c => c.isDigit || c = '.') then
    match splitDots s with
    | [a] => if a = [] then none else some (digitsVal a)
    | [a, b] =>
        if a = [] && b = [] then none
        else some ((digitsVal a : ℚ) + (digitsVal b : ℚ) / (10 ^ b.length : ℚ))
    | _ => none
  else none

/-- One statistic of the stats cell (lines 129-146): when the key pattern
matches, `float()` is applied to the comma-stripped capture; a `ValueError`
there (`Except.error`) escapes `parse_cv` uncaught. -/
def statEntry (key : String) (cell : List Char) : Except Unit (Option ℚ) :=
  match searchKeyNum key cell with
  | none => .ok none
  | some cap =>
      match pyFloat? (stripCommas cap) with
      | none => .error ()
      | some v => .ok (some v)

/-- The stats dict built for one matched day row: `mean`, `min`, `max`
inserted in source order, each only when its pattern matched; a raising
`float()` aborts (`Except.error`). -/
def statsOfCell (cell : List Char) : Except Unit (List (String × ℚ)) :=
  match statEntry "Mean: " cell with
  | .error e => .error e
  | .ok m =>
      match statEntry "Min: " cell with
      | .error e => .error e
      | .ok mi =>
          match statEntry "Max: " cell with
          | .error e => .error e
          | .ok ma =>
              .ok ((m.map (fun v => ("mean", v))).toList
                ++ (mi.map (fun v => ("min", v))).toList
                ++ (ma.map (fun v => ("max", v))).toList)

/-- The volume-stats loop (lines 109-148): for each weekday, search the
row pattern; on a match, build the stats dict (a raising `float()`
propagates out of the loop) and assign `volume_stats[day]`. -/
def volumeStatsGo (content : List Char) :
    List String → List (String × List (String × ℚ)) →
    Except Unit (List (String × List (String × ℚ)))
  | [], acc => .ok acc
  | day :: rest, acc =>
      match searchDayCell day content with
      | none => volumeStatsGo content rest acc
      | some cell =>
          match statsOfCell cell with
          | .error e => .error e
          | .ok st => volumeStatsGo content rest (acc ++ [(day, st)])

def volumeStatsOf (content : List Char) :
    Except Unit (List (String × List (String × ℚ))) :=
  volumeStatsGo content weekdays []

def backquoteChar : Char := Char.ofNat 96

/-- `re.search(r"Workspace ID\*\*: (\d+)", content)`, defaulting to
`"Unknown"` (lines 81-82). -/
def workspaceIdOf (content : List Char) : String :=
  match searchFrom (fun s =>
      match stripLit "Workspace ID**: ".data s with
      | none => none
      | some s1 =>
          let cap := s1.takeWhile Char.isDigit
          if cap = [] then none else some cap) content with
  | some cap => String.mk cap
  | none => "Unknown"

/-- Matcher for the filename-pattern regex `Common structure: `…``
(lines 86-87), defaulting to `""`. -/
def filenamePatternOf (content : List Char) : String :=
  match searchFrom (fun s =>
      match stripLit ("Common structure: ".data ++ [backquoteChar]) s with
      | none => none
      | some s1 =>
          let run := s1.takeWhile (fun c => c ≠ backquoteChar)
          match stripLit [backquoteChar] (s1.drop run.length) with
          | none => none
          | some _ => if run = [] then none else some run) content with
  | some run => String.mk run
  | none => ""

/-- `InputPreparer.parse_cv` on the file content of an existing CV (the
`None` of a missing file is the caller-visible `NotFound`; here the content
is given).  `Except.error` models a `ValueError` from `float()` escaping
the function. -/
def parse_cv (source_id : String) (content : List Char) :
    Except Unit SourceCV :=
  match volumeStatsOf content with
  | .error e => .error e
  | .ok vs =>
      .ok { resource_id := source_id,
            workspace_id := workspaceIdOf content,
            filename_pattern := filenamePatternOf content,
            upload_schedule := uploadScheduleOf content,
            volume_stats := vs }

/-! ## Helper lemmas -/

/-- `re.search` succeeds exactly when the matcher succeeds at some
position (for matchers that fail on the empty suffix). -/
lemma searchFrom_isSome_iff {β : Type} (m : List Char → Option β)
    (hm : m [] = none) (s : List Char) :
    (searchFrom m s).isSome ↔ ∃ i, (m (s.drop i)).isSome := by
  induction s with
  | nil => simp [searchFrom, hm]
  | cons c cs ih =>
      simp only [searchFrom]
      cases h : m (c :: cs) with
      | some r =>
          simp only [Option.isSome_some, true_iff]
          exact ⟨0, by simp [h]⟩
      | none =>
          rw [ih]
          constructor
          · rintro ⟨i, hi⟩
            exact ⟨i + 1, by simpa using hi⟩
          · rintro ⟨i, hi⟩
            cases i with
            | zero => simp [h] at hi
            | succ j => exact ⟨j, by simpa using hi⟩

/-- The schedule loop collects, in day order, the day-value pairs whose
search succeeded. -/
lemma buildSchedule_eq (content : List Char) :
    ∀ (days : List String) (acc : List (String × String)),
      buildSchedule content days acc
        = acc ++ days.filterMap
            (fun d => (searchDayTime d content).map (fun t => (d, t))) := by
  intro days
  induction days with
  | nil => intro acc; simp [buildSchedule]
  | cons d rest ih =>
      intro acc
      simp only [buildSchedule]
      cases h : searchDayTime d content with
      | some t => simp [h, ih]
      | none => simp [h, ih]

/-- Looking a key up in a collected association list misses when the key
is not among the days. -/
lemma lookup_collect_not_mem {β : Type} (f : String → Option β) :
    ∀ (days : List String) (day : String), day ∉ days →
      (days.filterMap (fun d => (f d).map (fun t => (d, t)))).lookup day
        = none := by
  intro days
  induction days with
  | nil => intro day _; simp
  | cons d rest ih =>
      intro day hday
      have hne : day ≠ d := fun h => hday (h ▸ List.mem_cons_self d rest)
      have hnm : day ∉ rest := fun h => hday (List.mem_cons_of_mem d h)
      cases h : f d with
      | none => simpa [h] using ih day hnm
      | some t =>
          simp only [List.filterMap_cons, h, Option.map_some']
          simp [List.lookup, beq_eq_false_iff_ne.mpr hne, ih day hnm]

/-- Looking a day up in a collected association list over distinct days
gives exactly that day's value. -/
lemma lookup_collect_mem {β : Type} (f : String → Option β) :
    ∀ (days : List String), days.Nodup → ∀ day ∈ days,
      (days.filterMap (fun d => (f d).map (fun t => (d, t)))).lookup day
        = f day := by
  intro days
  induction days with
  | nil => intro _ day hday; simp at hday
  | cons d rest ih =>
      intro hnd day hday
      obtain ⟨hdnotin, hndrest⟩ := List.nodup_cons.mp hnd
      rcases List.mem_cons.mp hday with rfl | hmem
      · cases h : f day with
        | none =>
            simp only [List.filterMap_cons, h, Option.map_none']
            rw [lookup_collect_not_mem f rest day hdnotin]
        | some t =>
            simp only [List.filterMap_cons, h, Option.map_some']
            simp [List.lookup, h]
      · have hne : day ≠ d := fun h => hdnotin (h ▸ hmem)
        cases h : f d with
        | none => simpa [h] using ih hndrest day hmem
        | some t =>
            simp only [List.filterMap_cons, h, Option.map_some']
            simp [List.lookup, beq_eq_false_iff_ne.mpr hne, ih hndrest day hmem]

/-- The per-day value the volume-stats loop assigns: the stats of the
first matching row, when the row matches and its stats build cleanly. -/
def dayVolumeEntry (content : List Char) (d : String) :
    Option (List (String × ℚ)) :=
  match searchDayCell d content with
  | none => none
  | some cell =>
      match statsOfCell cell with
      | .ok st => some st
      | .error _ => none

/-- When the volume-stats loop finishes without raising, it has collected
exactly the per-day entries, and every matched day's stats built
cleanly. -/
lemma volumeStatsGo_ok (content : List Char) :
    ∀ (days : List String) (acc vs : List (String × List (String × ℚ))),
      volumeStatsGo content days acc = .ok vs →
      vs = acc ++ days.filterMap
            (fun d => (dayVolumeEntry content d).map (fun t => (d, t)))
      ∧ ∀ d ∈ days, ∀ cell, searchDayCell d content = some cell →
          ∃ st, statsOfCell cell = .ok st := by
  intro days
  induction days with
  | nil =>
      intro acc vs h
      simp only [volumeStatsGo] at h
      obtain rfl := Except.ok.inj h
      exact ⟨by simp, by simp⟩
  | cons d rest ih =>
      intro acc vs h
      cases hs : searchDayCell d content with
      | none =>
          simp only [volumeStatsGo, hs] at h
          obtain ⟨h1, h2⟩ := ih acc vs h
          refine ⟨by simp [dayVolumeEntry, hs, h1], ?_⟩
          intro d2 hd2 cell hcell
          rcases List.mem_cons.mp hd2 with rfl | hmem
          · exact absurd hcell (by simp [hs])
          · exact h2 d2 hmem cell hcell
      | some cell =>
          cases hst : statsOfCell cell with
          | error e =>
              simp only [volumeStatsGo, hs, hst] at h
              exact absurd h (by simp)
          | ok st =>
              simp only [volumeStatsGo, hs, hst] at h
              obtain ⟨h1, h2⟩ := ih (acc ++ [(d, st)]) vs h
              refine ⟨by simp [dayVolumeEntry, hs, hst, h1], ?_⟩
              intro d2 hd2 cell2 hcell2
              rcases List.mem_cons.mp hd2 with rfl | hmem
              · rw [hs] at hcell2
                obtain rfl := Option.some.inj hcell2
                exact ⟨st, hst⟩
              · exact h2 d2 hmem cell2 hcell2

/-- A clean `statEntry` result is the parsed comma-stripped capture of its
pattern (or nothing, when the pattern did not match). -/
lemma statEntry_ok (key : String) (cell : List Char) (v : Option ℚ)
    (h : statEntry key cell = .ok v) :
    v = (searchKeyNum key cell).bind (fun cap => pyFloat? (stripCommas cap)) := by
  simp only [statEntry] at h
  cases h1 : searchKeyNum key cell with
  | none =>
      simp only [h1] at h
      obtain rfl := Except.ok.inj h
      simp
  | some cap =>
      simp only [h1] at h
      cases hf : pyFloat? (stripCommas cap) with
      | none => simp only [hf] at h; exact absurd h (by simp)
      | some w =>
          simp only [hf] at h
          obtain rfl := Except.ok.inj h
          simp [hf]

/-- Decomposition of a clean `statsOfCell` run into its three
`statEntry` results. -/
lemma statsOfCell_ok_parts (cell : List Char) (st : List (String × ℚ))
    (h : statsOfCell cell = .ok st) :
    ∃ m mi ma, statEntry "Mean: " cell = .ok m
      ∧ statEntry "Min: " cell = .ok mi
      ∧ statEntry "Max: " cell = .ok ma
      ∧ st = (m.map (fun v => ("mean", v))).toList
          ++ (mi.map (fun v => ("min", v))).toList
          ++ (ma.map (fun v => ("max", v))).toList := by
  simp only [statsOfCell] at h
  cases h1 : statEntry "Mean: " cell with
  | error e => simp only [h1] at h; exact absurd h (by simp)
  | ok m =>
      simp only [h1] at h
      cases h2 : statEntry "Min: " cell with
      | error e => simp only [h2] at h; exact absurd h (by simp)
      | ok mi =>
          simp only [h2] at h
          cases h3 : statEntry "Max: " cell with
          | error e => simp only [h3] at h; exact absurd h (by simp)
          | ok ma =>
              simp only [h3] at h
              obtain rfl := Except.ok.inj h
              exact ⟨m, mi, ma, rfl, rfl, rfl, rfl⟩

/-- A cleanly built stats dict holds, for each of `mean`, `min`, `max`,
exactly the parsed comma-stripped capture of its pattern, and nothing for
a statistic whose pattern did not match. -/
lemma statsOfCell_lookup (cell : List Char) (st : List (String × ℚ))
    (h : statsOfCell cell = .ok st) :
    st.lookup "mean"
        = (searchKeyNum "Mean: " cell).bind (fun cap => pyFloat? (stripCommas cap))
    ∧ st.lookup "min"
        = (searchKeyNum "Min: " cell).bind (fun cap => pyFloat? (stripCommas cap))
    ∧ st.lookup "max"
        = (searchKeyNum "Max: " cell).bind (fun cap => pyFloat? (stripCommas cap)) := by
  obtain ⟨m, mi, ma, h1, h2, h3, rfl⟩ := statsOfCell_ok_parts cell st h
  rw [← statEntry_ok "Mean: " cell m h1, ← statEntry_ok "Min: " cell mi h2,
      ← statEntry_ok "Max: " cell ma h3]
  cases m <;> cases mi <;> cases ma <;> simp [List.lookup]

/-- A successful incident-loop run yields one `Incident` per response
entry. -/
lemma parseIncidents_length (sid : String) :
    ∀ (es : List IncData) (l : List Incident),
      parseIncidents sid es = some l → l.length = es.length := by
  intro es
  induction es with
  | nil =>
      intro l h
      simp only [parseIncidents] at h
      obtain rfl := Option.some.inj h
      rfl
  | cons e rest ih =>
      intro l h
      cases hp : parseIncident sid e with
      | none => simp only [parseIncidents, hp] at h; exact absurd h (by simp)
      | some i =>
          cases hr : parseIncidents sid rest with
          | none => simp only [parseIncidents, hp, hr] at h; exact absurd h (by simp)
          | some is =>
              simp only [parseIncidents, hp, hr] at h
              obtain rfl := Option.some.inj h
              simp [ih is hr]

/-- Every incident of a successful incident-loop run comes from some
response entry. -/
lemma parseIncidents_mem (sid : String) :
    ∀ (es : List IncData) (l : List Incident),
      parseIncidents sid es = some l →
      ∀ inc ∈ l, ∃ e ∈ es, parseIncident sid e = some inc := by
  intro es
  induction es with
  | nil =>
      intro l h inc hinc
      simp only [parseIncidents] at h
      obtain rfl := Option.some.inj h
      simp at hinc
  | cons e rest ih =>
      intro l h inc hinc
      cases hp : parseIncident sid e with
      | none => simp only [parseIncidents, hp] at h; exact absurd h (by simp)
      | some i =>
          cases hr : parseIncidents sid rest with
          | none => simp only [parseIncidents, hp, hr] at h; exact absurd h (by simp)
          | some is =>
              simp only [parseIncidents, hp, hr] at h
              obtain rfl := Option.some.inj h
              rcases List.mem_cons.mp hinc with rfl | hmem
              · exact ⟨e, List.mem_cons_self e rest, hp⟩
              · obtain ⟨e2, he2, hpe2⟩ := ih is hr inc hmem
                exact ⟨e2, List.mem_cons_of_mem e he2, hpe2⟩

/-- The enum lookup maps a string to `ALL_GOOD` only when it is the
literal `"ALL_GOOD"`. -/
lemma ofString_eq_allgood (s : String)
    (h : IncidentSeverity.ofString? s = some .ALL_GOOD) : s = "ALL_GOOD" := by
  unfold IncidentSeverity.ofString? at h
  split_ifs at h <;> simp_all

/-- A first-attempt reply short-circuits the retry loop with no sleeping. -/
lemma attemptLoop_success (sid : String) (oracle : Nat → AttemptOutcome)
    (a rem : Nat) (resp : InferResponse) (h : oracle a = .success resp) :
    attemptLoop sid oracle a (rem + 1) = (Sum.inl resp, []) := by
  simp [attemptLoop, h]

/-- The report-assembly loop collects, in input order, one report per
source whose CV lookup succeeds. -/
lemma global_fold (cvs : List (String × SourceCV))
    (last_week : List (String × List FileData)) (d : RunDate)
    (oracles : String → Nat → AttemptOutcome) :
    ∀ (fd : List (String × List FileData)) (acc : List SourceReport),
      fd.foldl (fun acc p =>
        match cvs.lookup p.1 with
        | none => acc
        | some cv =>
            acc ++ [(analyze_source p.1 p.2 cv d
                      ((last_week.lookup p.1).getD []) (oracles p.1)).1]) acc
      = acc ++ fd.filterMap (fun p =>
          (cvs.lookup p.1).map (fun cv =>
            (analyze_source p.1 p.2 cv d
              ((last_week.lookup p.1).getD []) (oracles p.1)).1)) := by
  intro fd
  induction fd with
  | nil => intro acc; simp
  | cons p rest ih =>
      intro acc
      cases h : cvs.lookup p.1 with
      | none => simp [h, ih]
      | some cv => simp [h, ih]

/-! ## Claims -/

/-- C1 counterexample: the aggregate status of an analysis is not a
function of the incident list — a run whose service reply carries zero
incidents but status `URGENT` produces a report with zero incidents and
status `URGENT`, where the claimed rule demands `ALL_GOOD`. -/
theorem c1_counterexample :
    (analyze_source "s" [] ⟨"s", "1", "", [("Wed", "15:00")], []⟩
        ⟨"2025-09-10", "Wed"⟩ []
        (fun _ => .success (.ok { incidents := [], status := some "URGENT" }))).1.incidents
      = []
    ∧ (analyze_source "s" [] ⟨"s", "1", "", [("Wed", "15:00")], []⟩
        ⟨"2025-09-10", "Wed"⟩ []
        (fun _ => .success (.ok { incidents := [], status := some "URGENT" }))).1.status
      = .URGENT
    ∧ IncidentSeverity.URGENT ≠ IncidentSeverity.ALL_GOOD :=
  ⟨rfl, rfl, by decide⟩

/-- C1 (amended): the aggregate status of a parsed report is copied
verbatim from the response's `status` field (defaulting to `ALL_GOOD`
only when the field is absent), not recomputed from the incident list;
the escalation rules of the claim appear only as prompt instructions to
the external service. -/
theorem c1_status_from_response (sid : String) (r : RawResult)
    (incs : List Incident) (st : IncidentSeverity)
    (hincs : parseIncidents sid r.incidents = some incs)
    (hst : IncidentSeverity.ofString? (r.status.getD "ALL_GOOD") = some st) :
    parseResponse sid (.ok r) =
      { source_id := sid, incidents := incs, status := st,
        recommendations := r.recommendations } := by
  simp [parseResponse, hincs, hst]

/-- Witness for C1: a response with empty incidents and status `URGENT`
parses to a report with empty incidents and status `URGENT`. -/
theorem c1_witness :
    parseResponse "s" (.ok { incidents := [], status := some "URGENT" }) =
      { source_id := "s", incidents := [], status := .URGENT,
        recommendations := [] } :=
  c1_status_from_response "s" { incidents := [], status := some "URGENT" }
    [] .URGENT rfl rfl

/-- C2 counterexample: a source with a schedule entry for the run
weekday and an empty today-record list still gets whatever status the
service reply carries — here `ALL_GOOD`, where the claim demands
`URGENT`. -/
theorem c2_counterexample :
    (SourceCV.upload_schedule ⟨"s", "1", "", [("Wed", "15:00")], []⟩).lookup
        (RunDate.weekday ⟨"2025-09-10", "Wed"⟩) = some "15:00"
    ∧ (analyze_source "s" [] ⟨"s", "1", "", [("Wed", "15:00")], []⟩
        ⟨"2025-09-10", "Wed"⟩ []
        (fun _ => .success (.ok { incidents := [], status := some "ALL_GOOD" }))).1.status
      = .ALL_GOOD
    ∧ IncidentSeverity.ALL_GOOD ≠ IncidentSeverity.URGENT :=
  ⟨rfl, rfl, by decide⟩

/-- C2 (amended): for a zero-record source with a schedule entry for the
run weekday, the aggregate severity is not forced to `Urgent` by any
code path — it equals whatever status the service reply carries (the
total-outage rule exists only as prompt text). -/
theorem c2_outage_status_from_response (sid : String) (cv : SourceCV)
    (d : RunDate) (lw : List FileData) (oracle : Nat → AttemptOutcome)
    (r : RawResult) (incs : List Incident) (st : IncidentSeverity)
    (hsched : (cv.upload_schedule.lookup d.weekday).isSome)
    (h0 : oracle 0 = .success (.ok r))
    (hincs : parseIncidents sid r.incidents = some incs)
    (hst : IncidentSeverity.ofString? (r.status.getD "ALL_GOOD") = some st) :
    (analyze_source sid [] cv d lw oracle).1.status = st := by
  unfold analyze_source
  rw [show max_retries = 4 + 1 from rfl,
      attemptLoop_success sid oracle 0 4 _ h0]
  simp [parseResponse, hincs, hst]

/-- Witness for C2: a scheduled weekday, no records, and an `ALL_GOOD`
reply yield status `ALL_GOOD`. -/
theorem c2_witness :
    (analyze_source "s" [] ⟨"s", "1", "", [("Wed", "15:00")], []⟩
        ⟨"2025-09-10", "Wed"⟩ []
        (fun _ => .success (.ok { incidents := [], status := some "ALL_GOOD" }))).1.status
      = .ALL_GOOD :=
  c2_outage_status_from_response "s" ⟨"s", "1", "", [("Wed", "15:00")], []⟩
    ⟨"2025-09-10", "Wed"⟩ []
    (fun _ => .success (.ok { incidents := [], status := some "ALL_GOOD" }))
    { incidents := [], status := some "ALL_GOOD" } [] .ALL_GOOD
    (by decide) rfl rfl rfl

/-- C3 counterexample: two runs of `analyze_source` on identical
`(profile, todayRecords, lastWeekRecords, runDate)` inputs produce
different reports when the external service answers differently, so the
result is not determined by those inputs alone. -/
theorem c3_counterexample :
    (analyze_source "s" [] ⟨"s", "1", "", [("Wed", "15:00")], []⟩
        ⟨"2025-09-10", "Wed"⟩ []
        (fun _ => .success (.ok { incidents := [], status := some "ALL_GOOD" }))).1
    ≠ (analyze_source "s" [] ⟨"s", "1", "", [("Wed", "15:00")], []⟩
        ⟨"2025-09-10", "Wed"⟩ []
        (fun _ => .success (.ok { incidents := [], status := some "URGENT" }))).1 := by
  decide

/-- C3 (amended): analysis is deterministic given the external service's
responses — the report is a function of the source id and the response
oracle alone; files, CV, run date and last-week records do not influence
anything after the prompt is sent. -/
theorem c3_deterministic_given_responses (sid : String)
    (files files2 : List FileData) (cv cv2 : SourceCV) (d d2 : RunDate)
    (lw lw2 : List FileData) (oracle : Nat → AttemptOutcome) :
    analyze_source sid files cv d lw oracle
      = analyze_source sid files2 cv2 d2 lw2 oracle := rfl

/-- C4: the global report contains, in input order, exactly one source
report per source whose CV lookup succeeded; a source whose profile
resolution failed contributes nothing. -/
theorem c4_one_report_per_resolved_source (dateStr : String)
    (files_data last_week : List (String × List FileData))
    (cvs : List (String × SourceCV)) (d : RunDate)
    (oracles : String → Nat → AttemptOutcome) :
    generate_global_report dateStr files_data last_week cvs d oracles =
      { date := dateStr,
        source_reports := files_data.filterMap (fun p =>
          (cvs.lookup p.1).map (fun cv =>
            (analyze_source p.1 p.2 cv d
              ((last_week.lookup p.1).getD []) (oracles p.1)).1)) } := by
  unfold generate_global_report
  rw [global_fold cvs last_week d oracles files_data []]
  rfl

/-- C5: on throttling the loop makes up to 5 attempts, sleeping
`base_delay * 2 ^ attempt` before each retry (doubling from the base
delay); exhausted retries yield a synthetic `ATTENTION_REQUIRED` report
with a diagnostic recommendation, and so does an unparsable reply —
`analyze_source` returns a report rather than aborting. -/
theorem c5_retry_and_fallback (sid : String) (files : List FileData)
    (cv : SourceCV) (d : RunDate) (lw : List FileData) :
    (∀ oracle : Nat → AttemptOutcome,
        (∀ i, i < max_retries → oracle i = .throttle) →
        analyze_source sid files cv d lw oracle
          = (rateLimitReport sid,
             [base_delay * 2 ^ 0, base_delay * 2 ^ 1,
              base_delay * 2 ^ 2, base_delay * 2 ^ 3]))
    ∧ (∀ oracle : Nat → AttemptOutcome, oracle 0 = .success .malformed →
        (analyze_source sid files cv d lw oracle).1 = failParseReport sid)
    ∧ (rateLimitReport sid).status = .ATTENTION_REQUIRED
    ∧ (rateLimitReport sid).recommendations ≠ []
    ∧ (failParseReport sid).status = .ATTENTION_REQUIRED
    ∧ (failParseReport sid).recommendations ≠ [] := by
  refine ⟨?_, ?_, rfl, by simp [rateLimitReport], rfl, by simp [failParseReport]⟩
  · intro oracle h
    have h0 := h 0 (by norm_num [max_retries])
    have h1 := h 1 (by norm_num [max_retries])
    have h2 := h 2 (by norm_num [max_retries])
    have h3 := h 3 (by norm_num [max_retries])
    have h4 := h 4 (by norm_num [max_retries])
    unfold analyze_source
    rw [show max_retries = 4 + 1 from rfl]
    simp [attemptLoop, h0, h1, h2, h3, h4]
  · intro oracle h0
    unfold analyze_source
    rw [show max_retries = 4 + 1 from rfl,
        attemptLoop_success sid oracle 0 4 _ h0]
    rfl

/-- Witness for C5: an always-throttling service yields the rate-limit
report after delays 10, 20, 40, 80; an unparsable first reply yields the
parse-failure report. -/
theorem c5_witness :
    analyze_source "s" [] ⟨"s", "1", "", [], []⟩ ⟨"2025-09-10", "Wed"⟩ []
        (fun _ => .throttle)
      = (rateLimitReport "s",
         [base_delay * 2 ^ 0, base_delay * 2 ^ 1,
          base_delay * 2 ^ 2, base_delay * 2 ^ 3])
    ∧ (analyze_source "s" [] ⟨"s", "1", "", [], []⟩ ⟨"2025-09-10", "Wed"⟩ []
        (fun _ => .success .malformed)).1 = failParseReport "s" :=
  ⟨(c5_retry_and_fallback "s" [] ⟨"s", "1", "", [], []⟩
      ⟨"2025-09-10", "Wed"⟩ []).1 (fun _ => .throttle) (fun _ _ => rfl),
   (c5_retry_and_fallback "s" [] ⟨"s", "1", "", [], []⟩
      ⟨"2025-09-10", "Wed"⟩ []).2.1 (fun _ => .success .malformed) rfl⟩

/-- C6: `parse_cv` puts a weekday key into `upload_schedule` exactly when
the `HH:MM` day-row pattern matches somewhere in the content, the stored
value being the first match's captured time; a weekday with no match has
no entry at all (no midnight default). -/
theorem c6_schedule_iff_match (sid : String) (content : List Char)
    (cv : SourceCV) (day : String)
    (hok : parse_cv sid content = .ok cv) (hday : day ∈ weekdays) :
    cv.upload_schedule.lookup day = searchDayTime day content
    ∧ ((searchDayTime day content).isSome
        ↔ ∃ i, (matchDayTimeAt day (content.drop i)).isSome) := by
  have hsched : cv.upload_schedule = uploadScheduleOf content := by
    unfold parse_cv at hok
    cases hvs : volumeStatsOf content with
    | error e => simp only [hvs] at hok; exact absurd hok (by simp)
    | ok vs =>
        simp only [hvs] at hok
        obtain rfl := Except.ok.inj hok
        rfl
  constructor
  · rw [hsched]
    unfold uploadScheduleOf
    rw [buildSchedule_eq content weekdays []]
    simp only [List.nil_append]
    exact lookup_collect_mem (fun dd => searchDayTime dd content) weekdays
      (by decide) day hday
  · exact searchFrom_isSome_iff (matchDayTimeAt day) rfl content

/-- Witness for C6: on a CV with a Monday schedule row, the Monday entry
is present with the captured time and the match-existence equivalence
holds. -/
theorem c6_witness :
    (SourceCV.upload_schedule
        ⟨"s2", "Unknown", "", [("Mon", "15:00")], [("Mon", [])]⟩).lookup "Mon"
      = searchDayTime "Mon" "| Mon | 15:00 |".data
    ∧ ((searchDayTime "Mon" "| Mon | 15:00 |".data).isSome
        ↔ ∃ i, (matchDayTimeAt "Mon" ("| Mon | 15:00 |".data.drop i)).isSome) :=
  c6_schedule_iff_match "s2" "| Mon | 15:00 |".data
    ⟨"s2", "Unknown", "", [("Mon", "15:00")], [("Mon", [])]⟩ "Mon" rfl
    (by decide)

/-- C7: for each weekday, the volume statistics hold `mean`, `min`, `max`
exactly as the decimal value of the comma-stripped capture of the
corresponding pattern in the day's matched row cell; a statistic whose
pattern does not match is absent from the map (never zeroed), and a day
with no matching row has no entry. -/
theorem c7_volume_stats (sid : String) (content : List Char)
    (cv : SourceCV) (day : String)
    (hok : parse_cv sid content = .ok cv) (hday : day ∈ weekdays) :
    (searchDayCell day content = none → cv.volume_stats.lookup day = none)
    ∧ (∀ cell, searchDayCell day content = some cell →
        ∃ st, cv.volume_stats.lookup day = some st
          ∧ st.lookup "mean"
              = (searchKeyNum "Mean: " cell).bind
                  (fun cap => pyFloat? (stripCommas cap))
          ∧ st.lookup "min"
              = (searchKeyNum "Min: " cell).bind
                  (fun cap => pyFloat? (stripCommas cap))
          ∧ st.lookup "max"
              = (searchKeyNum "Max: " cell).bind
                  (fun cap => pyFloat? (stripCommas cap))) := by
  have hvs2 : volumeStatsOf content = .ok cv.volume_stats := by
    unfold parse_cv at hok
    cases hvs : volumeStatsOf content with
    | error e => simp only [hvs] at hok; exact absurd hok (by simp)
    | ok vs =>
        simp only [hvs] at hok
        obtain rfl := Except.ok.inj hok
        rfl
  obtain ⟨hchar, hstats⟩ :=
    volumeStatsGo_ok content weekdays [] cv.volume_stats hvs2
  have hlook : cv.volume_stats.lookup day = dayVolumeEntry content day := by
    rw [hchar]
    simp only [List.nil_append]
    exact lookup_collect_mem (fun dd => dayVolumeEntry content dd) weekdays
      (by decide) day hday
  constructor
  · intro hnone
    rw [hlook]
    simp [dayVolumeEntry, hnone]
  · intro cell hcell
    obtain ⟨st, hst⟩ := hstats day hday cell hcell
    refine ⟨st, ?_, statsOfCell_lookup cell st hst⟩
    rw [hlook]
    simp [dayVolumeEntry, hcell, hst]

/-- Witness for C7: a Tuesday row `Mean: 1,200<br>Min: 3` yields a
Tuesday stats map with `mean = 1200` (comma stripped), `min = 3`, and no
`max` entry. -/
theorem c7_witness :
    (searchDayCell "Tue" "| Tue | Mean: 1,200<br>Min: 3 |".data = none →
      (SourceCV.volume_stats
          ⟨"s3", "Unknown", "", [], [("Tue", [("mean", 1200), ("min", 3)])]⟩).lookup "Tue"
        = none)
    ∧ (∀ cell,
        searchDayCell "Tue" "| Tue | Mean: 1,200<br>Min: 3 |".data = some cell →
        ∃ st,
          (SourceCV.volume_stats
              ⟨"s3", "Unknown", "", [], [("Tue", [("mean", 1200), ("min", 3)])]⟩).lookup "Tue"
            = some st
          ∧ st.lookup "mean"
              = (searchKeyNum "Mean: " cell).bind
                  (fun cap => pyFloat? (stripCommas cap))
          ∧ st.lookup "min"
              = (searchKeyNum "Min: " cell).bind
                  (fun cap => pyFloat? (stripCommas cap))
          ∧ st.lookup "max"
              = (searchKeyNum "Max: " cell).bind
                  (fun cap => pyFloat? (stripCommas cap))) :=
  c7_volume_stats "s3" "| Tue | Mean: 1,200<br>Min: 3 |".data
    ⟨"s3", "Unknown", "", [], [("Tue", [("mean", 1200), ("min", 3)])]⟩ "Tue"
    rfl (by decide)

/-- C8 counterexample: a service reply may attach severity `ALL_GOOD` to
a concrete incident and report aggregate `ALL_GOOD` with a nonempty
incident list, and the engine keeps both — nothing forbids `ALL_GOOD`
inside an incidents list. -/
theorem c8_counterexample :
    (parseResponse "s" (.ok
        { incidents := [{ incident_type := some "Missing File",
                          severity := some "ALL_GOOD",
                          description := some "d" }],
          status := some "ALL_GOOD" })).incidents
      = [{ incident_type := .MISSING_FILE, severity := .ALL_GOOD,
           description := "d", file_name := none, source_id := "s" }]
    ∧ (parseResponse "s" (.ok
        { incidents := [{ incident_type := some "Missing File",
                          severity := some "ALL_GOOD",
                          description := some "d" }],
          status := some "ALL_GOOD" })).status = .ALL_GOOD
    ∧ ({ incident_type := .MISSING_FILE, severity := .ALL_GOOD,
         description := "d", file_name := none,
         source_id := "s" } : Incident).severity = .ALL_GOOD :=
  ⟨rfl, rfl, rfl⟩

/-- C8 (amended): an incident with severity `AllGood` can appear in a
produced report, but only when the response explicitly labels that entry
`"ALL_GOOD"` — the unknown-string fallback is `ATTENTION_REQUIRED`, so
`AllGood` is never introduced by the engine itself. -/
theorem c8_allgood_only_explicit (sid : String) (resp : InferResponse)
    (inc : Incident) (hmem : inc ∈ (parseResponse sid resp).incidents)
    (hsev : inc.severity = .ALL_GOOD) :
    ∃ r, resp = .ok r ∧ ∃ e ∈ r.incidents, e.severity = some "ALL_GOOD" := by
  cases resp with
  | malformed => simp [parseResponse, failParseReport] at hmem
  | ok r =>
      refine ⟨r, rfl, ?_⟩
      unfold parseResponse at hmem
      cases hp : parseIncidents sid r.incidents with
      | none => simp only [hp, failParseReport] at hmem; simp at hmem
      | some incs =>
          simp only [hp] at hmem
          cases hst : IncidentSeverity.ofString? (r.status.getD "ALL_GOOD") with
          | none => simp only [hst, failParseReport] at hmem; simp at hmem
          | some st =>
              simp only [hst] at hmem
              obtain ⟨e, he, hpe⟩ :=
                parseIncidents_mem sid r.incidents incs hp inc hmem
              refine ⟨e, he, ?_⟩
              unfold parseIncident at hpe
              cases hd : e.description with
              | none => simp only [hd] at hpe; exact absurd hpe (by simp)
              | some dsc =>
                  simp only [hd] at hpe
                  obtain rfl := Option.some.inj hpe
                  dsimp only at hsev
                  cases hse : e.severity with
                  | none => rw [hse] at hsev; simp at hsev
                  | some s =>
                      rw [hse] at hsev
                      cases hos : IncidentSeverity.ofString? s with
                      | none => simp [hos] at hsev
                      | some sv =>
                          simp [hos] at hsev
                          subst hsev
                          rw [ofString_eq_allgood s hos]

/-- Witness for C8: a response entry explicitly labelled `ALL_GOOD`
produces an `AllGood` incident, and the source of that severity is the
response itself. -/
theorem c8_witness :
    ∃ r, (InferResponse.ok
        { incidents := [{ incident_type := some "Duplicated File",
                          severity := some "ALL_GOOD",
                          description := some "w" }],
          status := some "URGENT" }) = .ok r
      ∧ ∃ e ∈ r.incidents, e.severity = some "ALL_GOOD" :=
  c8_allgood_only_explicit "s"
    (.ok { incidents := [{ incident_type := some "Duplicated File",
                           severity := some "ALL_GOOD",
                           description := some "w" }],
           status := some "URGENT" })
    { incident_type := .DUPLICATED_FILE, severity := .ALL_GOOD,
      description := "w", file_name := none, source_id := "s" }
    (by decide) rfl

/-- The per-source item loop of `load_files_data` keeps exactly the
items that validate, in order. -/
lemma load_inner (items : List RawFileItem) :
    ∀ fs : List FileData,
      items.foldl (fun fs item =>
        match validateFileData item with
        | some fd => fs ++ [fd]
        | none => fs) fs
      = fs ++ items.filterMap validateFileData := by
  induction items with
  | nil => intro fs; simp
  | cons it rest ih =>
      intro fs
      cases h : validateFileData it <;> simp [h, ih]

/-- `load_files_data` maps every source to its validated record list. -/
lemma load_files_data_eq (raw : List (String × List RawFileItem)) :
    load_files_data raw
      = raw.map (fun p => (p.1, p.2.filterMap validateFileData)) := by
  unfold load_files_data
  have step : ∀ (l : List (String × List RawFileItem))
      (acc : List (String × List FileData)),
      l.foldl (fun acc p =>
        acc ++ [(p.1, p.2.foldl (fun fs item =>
          match validateFileData item with
          | some fd => fs ++ [fd]
          | none => fs) [])]) acc
      = acc ++ l.map (fun p => (p.1, p.2.filterMap validateFileData)) := by
    intro l
    induction l with
    | nil => intro acc; simp
    | cons p rest ih =>
        intro acc
        simp [ih, load_inner p.2 []]
  simpa using step raw []

/-- C9 counterexample: a record with a negative row count passes
validation and is retained — the claimed `rowCount >= 0` invariant is
not enforced anywhere. -/
theorem c9_counterexample :
    validateFileData
        { filename := some "f.csv", rows := some (-1),
          status := some "SUCCEEDED", is_duplicated := some false,
          uploaded_at := some (.valid 0) }
      = some { filename := "f.csv", rows := -1, status := "SUCCEEDED",
               is_duplicated := false, uploaded_at := 0 }
    ∧ load_files_data
        [("s", [{ filename := some "f.csv", rows := some (-1),
                  status := some "SUCCEEDED", is_duplicated := some false,
                  uploaded_at := some (.valid 0) }])]
      = [("s", [{ filename := "f.csv", rows := -1, status := "SUCCEEDED",
                  is_duplicated := false, uploaded_at := 0 }])]
    ∧ ({ filename := "f.csv", rows := -1, status := "SUCCEEDED",
         is_duplicated := false, uploaded_at := 0 } : FileData).rows < 0 :=
  ⟨rfl, rfl, by decide⟩

/-- C9 (amended): after ingestion every source's record set is exactly
the items that pass `FileData` validation — a failing item is skipped
without failing its source — and every retained record was built from an
item whose required fields were present with `uploaded_at` a valid
instant; no non-negativity constraint on `rows` is checked. -/
theorem c9_ingestion_validation (raw : List (String × List RawFileItem))
    (item : RawFileItem) (fd : FileData)
    (hv : validateFileData item = some fd) :
    load_files_data raw
        = raw.map (fun p => (p.1, p.2.filterMap validateFileData))
    ∧ item.filename = some fd.filename
    ∧ item.rows = some fd.rows
    ∧ item.status = some fd.status
    ∧ item.is_duplicated = some fd.is_duplicated
    ∧ item.uploaded_at = some (.valid fd.uploaded_at) := by
  refine ⟨load_files_data_eq raw, ?_⟩
  obtain ⟨f, rws, st, dup, fsz, ua, sm⟩ := item
  cases f with
  | none => simp [validateFileData] at hv
  | some fn =>
      cases rws with
      | none => simp [validateFileData] at hv
      | some rw0 =>
          cases st with
          | none => simp [validateFileData] at hv
          | some st0 =>
              cases dup with
              | none => simp [validateFileData] at hv
              | some dup0 =>
                  cases ua with
                  | none => simp [validateFileData] at hv
                  | some ts =>
                      cases ts with
                      | invalid => simp [validateFileData] at hv
                      | valid t =>
                          simp only [validateFileData] at hv
                          obtain rfl := Option.some.inj hv
                          exact ⟨rfl, rfl, rfl, rfl, rfl⟩

/-- Witness for C9: a well-formed raw item is retained with all its
fields carried over. -/
theorem c9_witness :
    load_files_data
        [("s", [RawFileItem.mk (some "g.csv") (some 5) (some "SUCCEEDED")
                  (some false) none (some (.valid 7)) none])]
      = ([("s", [RawFileItem.mk (some "g.csv") (some 5) (some "SUCCEEDED")
                  (some false) none (some (.valid 7)) none])].map
          (fun p => (p.1, p.2.filterMap validateFileData)))
    ∧ (RawFileItem.mk (some "g.csv") (some 5) (some "SUCCEEDED")
        (some false) none (some (.valid 7)) none).filename
      = some (FileData.mk "g.csv" 5 "SUCCEEDED" false none 7 none).filename
    ∧ (RawFileItem.mk (some "g.csv") (some 5) (some "SUCCEEDED")
        (some false) none (some (.valid 7)) none).rows
      = some (FileData.mk "g.csv" 5 "SUCCEEDED" false none 7 none).rows
    ∧ (RawFileItem.mk (some "g.csv") (some 5) (some "SUCCEEDED")
        (some false) none (some (.valid 7)) none).status
      = some (FileData.mk "g.csv" 5 "SUCCEEDED" false none 7 none).status
    ∧ (RawFileItem.mk (some "g.csv") (some 5) (some "SUCCEEDED")
        (some false) none (some (.valid 7)) none).is_duplicated
      = some (FileData.mk "g.csv" 5 "SUCCEEDED" false none 7 none).is_duplicated
    ∧ (RawFileItem.mk (some "g.csv") (some 5) (some "SUCCEEDED")
        (some false) none (some (.valid 7)) none).uploaded_at
      = some (.valid (FileData.mk "g.csv" 5 "SUCCEEDED" false none 7 none).uploaded_at) :=
  c9_ingestion_validation
    [("s", [RawFileItem.mk (some "g.csv") (some 5) (some "SUCCEEDED")
              (some false) none (some (.valid 7)) none])]
    (RawFileItem.mk (some "g.csv") (some 5) (some "SUCCEEDED")
      (some false) none (some (.valid 7)) none)
    (FileData.mk "g.csv" 5 "SUCCEEDED" false none 7 none) rfl

/-- C10: response parsing never drops an entry or raises on an unknown
enum string — an unrecognized `incident_type` is recorded as
`FAILED_FILE` and an unrecognized `severity` as `ATTENTION_REQUIRED`. -/
theorem c10_unknown_enum_fallback (sid : String) :
    (∀ (es : List IncData) (l : List Incident),
        parseIncidents sid es = some l → l.length = es.length)
    ∧ (∀ (e : IncData) (d : String), e.description = some d →
        ∃ inc, parseIncident sid e = some inc
          ∧ (∀ s, e.incident_type = some s →
              IncidentType.ofString? s = none →
              inc.incident_type = .FAILED_FILE)
          ∧ (∀ s, e.severity = some s →
              IncidentSeverity.ofString? s = none →
              inc.severity = .ATTENTION_REQUIRED)) := by
  refine ⟨parseIncidents_length sid, ?_⟩
  intro e d hd
  refine ⟨{ incident_type :=
              (e.incident_type.bind IncidentType.ofString?).getD .FAILED_FILE,
            severity :=
              (e.severity.bind IncidentSeverity.ofString?).getD .ATTENTION_REQUIRED,
            description := d, file_name := e.file_name, source_id := sid },
          by simp [parseIncident, hd], ?_, ?_⟩
  · intro s hs hn
    simp [hs, hn]
  · intro s hs hn
    simp [hs, hn]

/-- Witness for C10: an entry with unrecognized type and severity
strings is kept, typed `FAILED_FILE` with severity
`ATTENTION_REQUIRED`. -/
theorem c10_witness :
    ∃ inc, parseIncident "s"
        { incident_type := some "Bogus Type", severity := some "SEVERE",
          description := some "d" } = some inc
      ∧ inc.incident_type = .FAILED_FILE
      ∧ inc.severity = .ATTENTION_REQUIRED := by
  obtain ⟨inc, h1, h2, h3⟩ := (c10_unknown_enum_fallback "s").2
    { incident_type := some "Bogus Type", severity := some "SEVERE",
      description := some "d" } "d" rfl
  exact ⟨inc, h1, h2 "Bogus Type" rfl rfl, h3 "SEVERE" rfl rfl⟩
